import Mathlib

/-!
Verification development for the lucid-api-server gateway (src/server.js).

The server's handler logic is shallowly embedded: JavaScript runtime values
that can appear in parsed JSON bodies are modelled by `JsVal`; a missing
property (JS `undefined`) is modelled by `Option JsVal` being `none`.
Stateful pieces (the rate-limiter bucket) are explicit state passing, and
upstream calls together with `JSON.parse` are oracle parameters of the
handler functions, so each theorem quantifies over (or instantiates) them.
-/

/-- A JavaScript value reachable from parsed JSON: `null`, booleans, numbers
(JSON numbers are exact decimals, modelled as rationals), strings, arrays
and objects (ordered key/value lists, keys assumed unique as produced by
`JSON.parse`). JS `undefined` is not a `JsVal`; it is modelled as `none`
at `Option JsVal` wherever property lookup can miss. -/
inductive JsVal where
  | null : JsVal
  | bool : Bool → JsVal
  | num : Rat → JsVal
  | str : String → JsVal
  | arr : List JsVal → JsVal
  | obj : List (String × JsVal) → JsVal

/-- First-match association lookup on an object's field list (keys coming
from `JSON.parse` are unique, so first-match agrees with JS lookup). -/
def lookupField : List (String × JsVal) → String → Option JsVal
  | [], _ => none
  | (k, v) :: rest, key => if k = key then some v else lookupField rest key

/-- JS truthiness of a possibly-undefined value: `undefined`, `null`,
`false`, `0` and `""` are falsy; arrays and objects are always truthy.
(`NaN` cannot occur in a `JsVal`.) -/
def jsTruthy : Option JsVal → Bool
  | none => false
  | some JsVal.null => false
  | some (JsVal.bool b) => b
  | some (JsVal.num n) => decide (n ≠ 0)
  | some (JsVal.str s) => decide (s ≠ "")
  | some (JsVal.arr _) => true
  | some (JsVal.obj _) => true

/-- JS `ToString` for a number. Integral values print with no decimal point,
as in JS. The decimal rendering of non-integral rationals is JS-runtime
behaviour, not repository code; it is approximated here (no handler theorem
below depends on the digits of a non-integral number). -/
def numToString (n : Rat) : String :=
  if n.den = 1 then toString n.num else toString n

mutual

/-- JS `ToString` (string coercion inside template literals). Arrays
stringify as the comma-join of their elements with `null` elements
rendering as the empty string, objects as `"[object Object]"`. -/
def jsToString : JsVal → String
  | JsVal.null => "null"
  | JsVal.bool b => if b then "true" else "false"
  | JsVal.num n => numToString n
  | JsVal.str s => s
  | JsVal.arr xs => joinVals xs
  | JsVal.obj _ => "[object Object]"

/-- Comma-join used by JS `Array.prototype.toString`. -/
def joinVals : List JsVal → String
  | [] => ""
  | v :: rest =>
    (match v with
     | JsVal.null => ""
     | w => jsToString w)
    ++ (if rest.isEmpty then "" else ",") ++ joinVals rest

end

/-- String coercion of a possibly-undefined value, as in `` `${x}` ``:
`undefined` renders as `"undefined"`. -/
def optToString : Option JsVal → String
  | none => "undefined"
  | some v => jsToString v

/-- JS `a || b`: the left operand when truthy, otherwise the right. -/
def jsOrO (a : Option JsVal) (b : JsVal) : JsVal :=
  match a with
  | some v => if jsTruthy (some v) then v else b
  | none => b

/-- JS property access `v.k`. Accessing a property of `undefined` or `null`
throws a `TypeError` (the `error` case); on primitives and arrays it yields
`undefined` for the property names the server reads (none of which is an
array index or `length`). -/
def jsGet : Option JsVal → String → Except Unit (Option JsVal)
  | none, _ => Except.error ()
  | some JsVal.null, _ => Except.error ()
  | some (JsVal.obj fs), k => Except.ok (lookupField fs k)
  | some _, _ => Except.ok none

/-- JS index access `v[i]`. Throws on `undefined`/`null`; indexes arrays and
strings; on objects looks up the numeric key as a string; on the remaining
primitives yields `undefined`. -/
def jsIndex : Option JsVal → Nat → Except Unit (Option JsVal)
  | none, _ => Except.error ()
  | some JsVal.null, _ => Except.error ()
  | some (JsVal.arr xs), i => Except.ok (xs.get? i)
  | some (JsVal.str s), i =>
    Except.ok ((s.data.get? i).map (fun c => JsVal.str (String.mk [c])))
  | some (JsVal.obj fs), i => Except.ok (lookupField fs (Nat.repr i))
  | some _, _ => Except.ok none

/-- Property access on a value already known not to be `null`/`undefined`
(used where the code has successfully accessed another property first). -/
def pget : JsVal → String → Option JsVal
  | JsVal.obj fs, k => lookupField fs k
  | _, _ => none

/-- Whether the character list starts with the given pattern. -/
def charsStartWith : List Char → List Char → Bool
  | _, [] => true
  | [], _ :: _ => false
  | a :: as, b :: bs => a = b && charsStartWith as bs

/-- Whether the character list contains the pattern as a contiguous run. -/
def charsContain : List Char → List Char → Bool
  | [], pat => pat.isEmpty
  | a :: as, pat => charsStartWith (a :: as) pat || charsContain as pat

/-- JS `s.includes(pat)`. -/
def strIncludes (s pat : String) : Bool :=
  charsContain s.data pat.data

/-- An HTTP response produced by a handler: status code plus the JSON body
as serialized by `res.json` (`JSON.stringify` drops object entries whose
value is `undefined`, which is applied before a body is stored here). -/
structure HttpResponse where
  status : Nat
  body : JsVal

/-- The uniform error body `{error: true, message}` (src/server.js builds
this shape at every error return). -/
def errObj (m : JsVal) : JsVal :=
  JsVal.obj [("error", JsVal.bool true), ("message", m)]

/-- Server environment: the two provider credentials read from
`process.env` at startup (`DEEPSEEK_API_KEY`, `OPENAI_API_KEY`), each
possibly unset. -/
structure Env where
  deepseekKey : Option String
  openaiKey : Option String

/-- Truthiness of an environment string (`!DEEPSEEK_API_KEY`): unset or
empty is falsy. -/
def strOptTruthy : Option String → Bool
  | none => false
  | some s => decide (s ≠ "")

/-- A 2xx upstream reply as resolved by axios: HTTP status and parsed body. -/
structure UpResponse where
  status : Nat
  data : JsVal

/-- An error caught from an axios call (or any JS `Error` reaching the same
catch blocks): optional error `code`, the `message` string, and the
upstream reply when the upstream responded with a non-2xx status
(`error.response`, absent for connection-level failures). -/
structure AxiosError where
  code : Option String
  message : String
  response : Option UpResponse

/-- Modelled from the spec: the repository instantiates `RateLimiterMemory`
from the `rate-limiter-flexible` package (src/server.js lines 30-33) whose
implementation is not part of this repository; §3/§4.1 of the spec describe
it as a per-key fixed-window counter `{count, windowStart}`. -/
structure RateWindow where
  count : Nat
  windowStart : Nat

/-- Configured capacity: `points: 10` (src/server.js line 31). -/
def ratePoints : Nat := 10

/-- Configured window length: `duration: 1` second (src/server.js line 32);
timestamps below are in seconds. -/
def rateDuration : Nat := 1

/-- Modelled from the spec: one `rateLimiter.consume` call for a key whose
bucket is `w` (absent on first use) at time `now`. A fresh or expired
window restarts with count 1; within an active window the count increments
while below capacity and the call is rejected without further mutation once
capacity is reached (§4.1). Returns (allowed, new bucket). -/
def rlConsume (now : Nat) (w : Option RateWindow) : Bool × RateWindow :=
  match w with
  | none => (true, ⟨1, now⟩)
  | some w =>
    if w.windowStart + rateDuration ≤ now then (true, ⟨1, now⟩)
    else if w.count < ratePoints then (true, ⟨w.count + 1, w.windowStart⟩)
    else (false, w)

/-- A sequence of consume calls for one key at the given timestamps,
threading the bucket; returns the admission decisions and final bucket. -/
def rlConsumeSeq : Option RateWindow → List Nat → List Bool × Option RateWindow
  | w, [] => ([], w)
  | w, t :: ts =>
    let r := rlConsume t w
    let rest := rlConsumeSeq (some r.2) ts
    (r.1 :: rest.1, rest.2)

/-- The rate-limiting middleware (src/server.js lines 36-46): an admitted
request proceeds to the route handler, a rejected one short-circuits with
429 and the fixed error body. -/
def rateLimiterMiddleware (allowed : Bool) (next : HttpResponse) : HttpResponse :=
  if allowed then next
  else ⟨429, errObj (JsVal.str "Too many requests, please try again later.")⟩

/-- The user-role prompt for the search upstream call (src/server.js lines
185-194): the query is interpolated, and a truthy `priceFilter` appends a
price-range sentence — used as-is when it is a string, with `around $`
prepended otherwise. A falsy `priceFilter` contributes nothing. -/
def buildUserPrompt (query : JsVal) (priceFilter : Option JsVal) : String :=
  "I\x27m looking for information about " ++ jsToString query ++
  ". Please provide details about various options, including pricing, features, pros, and cons." ++
  (if jsTruthy priceFilter then
    " I\x27m interested in the " ++
    (match priceFilter with
     | some (JsVal.str s) => s
     | other => "around $" ++ optToString other) ++
    " price range."
   else "")

/-- What the search route does before any outbound call: either it already
responds (validation failure or missing credential) or it reaches the
axios call carrying the constructed user prompt. -/
inductive SearchPhase where
  | respond : HttpResponse → SearchPhase
  | callUpstream : String → SearchPhase

/-- The pre-upstream part of `POST /api/search` (src/server.js lines
146-204): destructure `{query, priceFilter}`, reject a falsy `query` with
400, reject a missing DeepSeek key with 500, otherwise proceed to the
upstream call with the built prompt. -/
def searchPhase (env : Env) (body : List (String × JsVal)) : SearchPhase :=
  let query := lookupField body "query"
  if !jsTruthy query then
    SearchPhase.respond ⟨400, errObj (JsVal.str "Search query is required")⟩
  else if !strOptTruthy env.deepseekKey then
    SearchPhase.respond
      ⟨500, errObj (JsVal.str "API configuration error: Missing API key")⟩
  else
    SearchPhase.callUpstream
      (buildUserPrompt (query.getD JsVal.null) (lookupField body "priceFilter"))

/-- The catch around the axios call itself (src/server.js lines 207-226):
connection-level failures answer 503, explicit socket timeouts answer 504,
anything else is rethrown (`none`) to the outer apiError catch. -/
def networkCatch (e : AxiosError) : Option HttpResponse :=
  if e.code = some "ECONNREFUSED" ∨ e.code = some "ENOTFOUND" ∨
     strIncludes e.message "connect" = true ∨ strIncludes e.message "network" = true then
    some ⟨503, errObj (JsVal.str "Cannot connect to search service. Please try again later.")⟩
  else if e.code = some "ETIMEDOUT" ∨ e.code = some "ESOCKETTIMEDOUT" then
    some ⟨504, errObj (JsVal.str "Search service connection timed out. Please try again later.")⟩
  else
    none

/-- Optional-chaining property access `a?.b` on a possibly-undefined value:
`undefined`/`null` short-circuit to `undefined` instead of throwing. -/
def optChainGet (v : Option JsVal) (k : String) : Option JsVal :=
  match v with
  | none => none
  | some JsVal.null => none
  | some (JsVal.obj fs) => lookupField fs k
  | some _ => none

/-- The apiError catch of the search route (src/server.js lines 299-330):
status is the upstream reply's status when present (else 500); the message
is `response?.data?.message || error.message || 'Failed to search
products'`, overridden for 401/403 and 404 replies, and an `ECONNABORTED`
code (the axios 15s timeout) forces 504 with a timeout message. -/
def apiCatch (e : AxiosError) : HttpResponse :=
  let respStatus : Option Nat := e.response.map (fun r => r.status)
  let statusCode : Nat :=
    match respStatus with
    | some s => if s ≠ 0 then s else 500
    | none => 500
  let errorMessage : JsVal :=
    jsOrO (optChainGet (e.response.map (fun r => r.data)) "message")
      (jsOrO (some (JsVal.str e.message)) (JsVal.str "Failed to search products"))
  if respStatus = some 401 ∨ respStatus = some 403 then
    ⟨statusCode, errObj (JsVal.str "Authentication error with search service. Please contact support.")⟩
  else if respStatus = some 404 then
    ⟨statusCode, errObj (JsVal.str "Search service endpoint not found. Please contact support.")⟩
  else if e.code = some "ECONNABORTED" then
    ⟨504, errObj (JsVal.str "Search request timed out. Please try again later.")⟩
  else
    ⟨statusCode, errObj errorMessage⟩

/-- `response.data.choices[0].message.content` (src/server.js line 236),
executed inside the parsing try: any intermediate `null`/`undefined`
throws into the parsing catch. -/
def extractContent (data : JsVal) : Except Unit (Option JsVal) := do
  let choices ← jsGet (some data) "choices"
  let c0 ← jsIndex choices 0
  let msg ← jsGet c0 "message"
  jsGet msg "content"

/-- The dispatch on the parsed completion (src/server.js lines 240-261): a
truthy `products` field is used verbatim, else a truthy `recommendations`
field, else a single product is constructed from the parsed object's
alternate key names with the listed defaults (`query` is the raw query
value here, not its string coercion). Throws (into the parsing catch) when
the parsed value is `null`, via the first property access. -/
def dispatchProducts (query : JsVal) (parsedData : JsVal) : Except Unit JsVal := do
  let prods ← jsGet (some parsedData) "products"
  if jsTruthy prods then
    pure (prods.getD JsVal.null)
  else
    let recs ← jsGet (some parsedData) "recommendations"
    if jsTruthy recs then
      pure (recs.getD JsVal.null)
    else do
      let name ← jsGet (some parsedData) "name"
      let title ← jsGet (some parsedData) "title"
      let descr ← jsGet (some parsedData) "description"
      let summ ← jsGet (some parsedData) "summary"
      let feat ← jsGet (some parsedData) "features"
      let pros ← jsGet (some parsedData) "pros"
      let cons ← jsGet (some parsedData) "cons"
      let pmin ← jsGet (some parsedData) "price_min"
      let minp ← jsGet (some parsedData) "minPrice"
      let pmax ← jsGet (some parsedData) "price_max"
      let maxp ← jsGet (some parsedData) "maxPrice"
      let rating ← jsGet (some parsedData) "rating"
      let rc ← jsGet (some parsedData) "reviewCount"
      pure (JsVal.arr [JsVal.obj
        [("name", jsOrO name (jsOrO title query)),
         ("description", jsOrO descr (jsOrO summ (JsVal.str ""))),
         ("features", jsOrO feat (JsVal.arr [])),
         ("pros", jsOrO pros (JsVal.str "")),
         ("cons", jsOrO cons (JsVal.str "")),
         ("price_min", jsOrO pmin (jsOrO minp (JsVal.num 0))),
         ("price_max", jsOrO pmax (jsOrO maxp (JsVal.num 0))),
         ("rating", jsOrO rating (JsVal.num 0)),
         ("review_count", jsOrO rc (JsVal.num 0))]])

/-- The synthetic single-product list built by the parsing catch
(src/server.js lines 262-280); its `name` is the template-interpolated
query. -/
def fallbackProducts (query : JsVal) : JsVal :=
  JsVal.arr [JsVal.obj
    [("name", JsVal.str (jsToString query)),
     ("description", JsVal.str "No detailed information available"),
     ("features", JsVal.arr [JsVal.str "Generated from AI description"]),
     ("pros", JsVal.str "Information not available"),
     ("cons", JsVal.str "Information not available"),
     ("price_min", JsVal.num 0),
     ("price_max", JsVal.num 0),
     ("rating", JsVal.num 0),
     ("review_count", JsVal.num 0)]]

/-- The body of the parsing try (src/server.js lines 234-261): extract the
completion text, parse it with the runtime's `JSON.parse` (the `parse`
oracle, applied to the string coercion of the extracted value), and
dispatch. -/
def searchParseStep (parse : String → Except Unit JsVal) (query : JsVal)
    (data : JsVal) : Except Unit JsVal := do
  let content ← extractContent data
  let parsed ← parse (optToString content)
  dispatchProducts query parsed

/-- The parsing try/catch as a whole (src/server.js lines 231-281): any
throw inside the try is caught and replaced by the synthetic fallback
list; the parse failure never escapes. -/
def searchTryBlock (parse : String → Except Unit JsVal) (query : JsVal)
    (data : JsVal) : JsVal :=
  match searchParseStep parse query data with
  | Except.ok ps => ps
  | Except.error _ => fallbackProducts query

/-- One product of `formattedResults` (src/server.js lines 285-295), before
serialization: every field except `productName` is defaulted with `||`;
`productName` is `product.name` verbatim and may be `undefined` (`none`).
`retailers` is the element's `retailers` value passed through unchanged. -/
def formatFields (p : JsVal) : List (String × Option JsVal) :=
  [("productName", pget p "name"),
   ("productImageUrl", some (jsOrO (pget p "image_url") (JsVal.str "https://via.placeholder.com/300"))),
   ("averageRating", some (jsOrO (pget p "rating") (JsVal.num 0))),
   ("reviewCount", some (jsOrO (pget p "review_count") (JsVal.num 0))),
   ("pros", some (jsOrO (pget p "pros") (JsVal.str "No information available"))),
   ("cons", some (jsOrO (pget p "cons") (JsVal.str "No information available"))),
   ("priceMin", some (jsOrO (pget p "price_min") (JsVal.num 0))),
   ("priceMax", some (jsOrO (pget p "price_max") (JsVal.num 0))),
   ("retailers", some (jsOrO (pget p "retailers") (JsVal.arr [])))]

/-- The arrow body of `products.map` applied to one element: a `null`
element throws a `TypeError` at the first property access (the message
text is the runtime's, modelled). -/
def formatProduct (p : JsVal) : Except String (List (String × Option JsVal)) :=
  match p with
  | JsVal.null => Except.error "Cannot read properties of null (reading \x27name\x27)"
  | q => Except.ok (formatFields q)

/-- Running the map over all elements; the first throwing element aborts. -/
def formatAll : List JsVal → Except String (List (List (String × Option JsVal)))
  | [] => Except.ok []
  | p :: rest => do
    let f ← formatProduct p
    let fs ← formatAll rest
    pure (f :: fs)

/-- `products.map(...)` (src/server.js line 285): a non-array `products`
value has no `map` method and throws a `TypeError` into the apiError catch
(the message text is the runtime's, modelled). -/
def formatProducts : JsVal → Except String (List (List (String × Option JsVal)))
  | JsVal.arr xs => formatAll xs
  | _ => Except.error "products.map is not a function"

/-- `JSON.stringify` of one formatted product as done by `res.json`:
entries whose value is `undefined` are dropped. -/
def stringifyFields (fs : List (String × Option JsVal)) : List (String × JsVal) :=
  fs.filterMap (fun kv => kv.2.map (fun v => (kv.1, v)))

/-- The serialized canonical product for one upstream element (derived
helper for theorem statements). -/
def canonProduct (p : JsVal) : JsVal :=
  match formatProduct p with
  | Except.ok out => JsVal.obj (stringifyFields out)
  | Except.error _ => JsVal.null

/-- `POST /api/search` (src/server.js lines 143-339) as a function of the
environment, the parsed request body's fields, the runtime `JSON.parse`
oracle and the upstream-call oracle (prompt ↦ axios outcome). Success
formats the product list; a throwing map lands in the apiError catch as a
plain `Error`-shaped value with no `code` and no `response`. -/
def searchHandler (env : Env) (body : List (String × JsVal))
    (parse : String → Except Unit JsVal)
    (upstream : String → Except AxiosError UpResponse) : HttpResponse :=
  match searchPhase env body with
  | SearchPhase.respond r => r
  | SearchPhase.callUpstream prompt =>
    match upstream prompt with
    | Except.error e =>
      (match networkCatch e with
       | some r => r
       | none => apiCatch e)
    | Except.ok resp =>
      let queryVal := (lookupField body "query").getD JsVal.null
      let products := searchTryBlock parse queryVal resp.data
      match formatProducts products with
      | Except.ok raws =>
        ⟨200, JsVal.obj [("products", JsVal.arr (raws.map (fun out => JsVal.obj (stringifyFields out))))]⟩
      | Except.error msg => apiCatch ⟨none, msg, none⟩

/-- The `.length` property of a JS value: arrays and strings have their
length, objects may carry an own `length` entry, other primitives have
none. -/
def jsLength : JsVal → Option JsVal
  | JsVal.arr xs => some (JsVal.num xs.length)
  | JsVal.str s => some (JsVal.num s.length)
  | JsVal.obj fs => lookupField fs "length"
  | _ => none

/-- Digit-list to number, failing on any non-digit. -/
def digitsToNatAux : List Char → Nat → Option Nat
  | [], acc => some acc
  | c :: cs, acc =>
    if c.isDigit then digitsToNatAux cs (acc * 10 + (c.toNat - 48)) else none

/-- Nonempty all-digit character list to its value. -/
def digitsToNat (cs : List Char) : Option Nat :=
  if cs.isEmpty then none else digitsToNatAux cs 0

/-- Split a character list at the first dot. -/
def splitOnDot : List Char → List Char × Option (List Char)
  | [] => ([], none)
  | c :: rest =>
    if c = '.' then ([], some rest)
    else
      let r := splitOnDot rest
      (c :: r.1, r.2)

/-- JS `ToNumber` on a string (`none` is NaN): trimmed empty input is 0,
otherwise an optionally signed decimal literal with optional fraction.
The exponent, hexadecimal and Infinity forms of the JS grammar are not
modelled (they come out as NaN here); no claim below reaches them. -/
def strToNumOpt (s : String) : Option Rat :=
  let t := s.trim
  if t = "" then some 0
  else
    let su : Rat × List Char :=
      match t.data with
      | '-' :: rest => (-1, rest)
      | '+' :: rest => (1, rest)
      | cs => (1, cs)
    match splitOnDot su.2 with
    | (ip, none) => (digitsToNat ip).map (fun n => su.1 * n)
    | (ip, some fp) =>
      if ip.isEmpty && fp.isEmpty then none
      else do
        let i ← if ip.isEmpty then some 0 else digitsToNat ip
        let f ← if fp.isEmpty then some 0 else digitsToNat fp
        pure (su.1 * ((i : Rat) + (f : Rat) / ((10 : Rat) ^ fp.length)))

/-- JS `ToNumber` of a possibly-undefined value (`none` is NaN). Arrays
coerce through their string form; plain objects coerce through
`"[object Object]"`, i.e. NaN. -/
def jsToNumber : Option JsVal → Option Rat
  | none => none
  | some JsVal.null => some 0
  | some (JsVal.bool b) => some (if b then 1 else 0)
  | some (JsVal.num n) => some n
  | some (JsVal.str s) => strToNumOpt s
  | some (JsVal.arr xs) => strToNumOpt (jsToString (JsVal.arr xs))
  | some (JsVal.obj _) => none

/-- The `context.products.length > 0` comparison (src/server.js line 369):
`x > 0` after `ToNumber` coercion; NaN compares false. -/
def lenGtZero (v : JsVal) : Bool :=
  match jsToNumber (jsLength v) with
  | some n => decide (0 < n)
  | none => false

/-- One iteration of the products `forEach` in the chat context prompt
(src/server.js lines 371-377): a `null` element throws at the first
property access; otherwise the interpolated line is appended. -/
def productLine (p : JsVal) : Except Unit String :=
  match p with
  | JsVal.null => Except.error ()
  | q =>
    Except.ok ("\n- " ++ optToString (pget q "name") ++
      "\n  Pros: " ++ optToString (pget q "pros") ++
      "\n  Cons: " ++ optToString (pget q "cons") ++ "\n")

/-- The whole `forEach` over the context products. -/
def productLines : List JsVal → Except Unit String
  | [] => Except.ok ""
  | p :: rest => do
    let l ← productLine p
    let ls ← productLines rest
    pure (l ++ ls)

/-- The synthesized system prompt from a truthy `context` (src/server.js
lines 357-380). A truthy `context.products` whose coerced length is
positive but which is not an array has no `forEach` and throws. -/
def buildContextPrompt (ctx : JsVal) : Except Unit String := do
  let base := "You are a helpful shopping assistant. " ++
    (if jsTruthy (pget ctx "searchQuery") then
      "The user is searching for: " ++ optToString (pget ctx "searchQuery") ++ ". "
     else "")
  let prods := pget ctx "products"
  if jsTruthy prods && lenGtZero (prods.getD JsVal.null) then
    let base := base ++ "Here is information about some relevant products:\n"
    match prods with
    | some (JsVal.arr xs) => do
      let ls ← productLines xs
      pure (base ++ ls)
    | _ => Except.error ()
  else
    pure base

/-- One element of the payload sent to the chat upstream: the `role` and
`content` properties of a request message (either may be `undefined`). -/
structure ChatMsgOut where
  role : Option JsVal
  content : Option JsVal

/-- The arrow body of `messages.map` (src/server.js lines 355-358): a
`null` element throws. -/
def msgToOut (m : JsVal) : Except Unit ChatMsgOut :=
  match m with
  | JsVal.null => Except.error ()
  | q => Except.ok ⟨pget q "role", pget q "content"⟩

/-- The whole `messages.map`. -/
def msgsToOut : List JsVal → Except Unit (List ChatMsgOut)
  | [] => Except.ok []
  | m :: rest => do
    let o ← msgToOut m
    let os ← msgsToOut rest
    pure (o :: os)

/-- Prefixing the synthesized system message when `context` is truthy
(src/server.js lines 360-384, the `unshift`). -/
def contextStep (ctx : Option JsVal) (oai : List ChatMsgOut) :
    Except Unit (List ChatMsgOut) :=
  if jsTruthy ctx then do
    let cp ← buildContextPrompt (ctx.getD JsVal.null)
    pure (⟨some (JsVal.str "system"), some (JsVal.str cp)⟩ :: oai)
  else
    pure oai

/-- What the chat route does before any outbound call: either it already
responds (validation failure, or a pre-call throw landing in the route's
catch) or it reaches the axios call with the prepared message list. -/
inductive ChatPhase where
  | respond : HttpResponse → ChatPhase
  | callUpstream : List ChatMsgOut → ChatPhase

/-- The pre-upstream part of `POST /api/chat` (src/server.js lines 342-384):
missing, non-array or empty `messages` answers 400; a throw while mapping
messages or building the context prompt is caught by the route's single
catch, which answers 500 with the fixed message. -/
def chatPhase (body : List (String × JsVal)) : ChatPhase :=
  match lookupField body "messages" with
  | some (JsVal.arr msgs) =>
    if msgs.length = 0 then
      ChatPhase.respond ⟨400, errObj (JsVal.str "Messages are required and must be an array")⟩
    else
      match msgsToOut msgs with
      | Except.error _ =>
        ChatPhase.respond ⟨500, errObj (JsVal.str "Failed to get AI response")⟩
      | Except.ok oai =>
        match contextStep (lookupField body "context") oai with
        | Except.error _ =>
          ChatPhase.respond ⟨500, errObj (JsVal.str "Failed to get AI response")⟩
        | Except.ok oai2 => ChatPhase.callUpstream oai2
  | _ =>
    ChatPhase.respond ⟨400, errObj (JsVal.str "Messages are required and must be an array")⟩

/-- The Authorization header value `` `Bearer ${OPENAI_API_KEY}` ``
(src/server.js line 394): an unset key interpolates as `"undefined"` —
the handler performs no credential check. -/
def authHeader (key : Option String) : String :=
  "Bearer " ++ (match key with | some k => k | none => "undefined")

/-- `POST /api/chat` (src/server.js lines 342-411): after the pre-call
phase, the axios call is made with the Authorization header built from the
(possibly unset) key; any upstream error, and any throw while extracting
`choices[0].message.content`, is caught and answered 500 with the fixed
message; success answers 200 with `{reply}` (an `undefined` content is
dropped by serialization). -/
def chatHandler (env : Env) (body : List (String × JsVal))
    (upstream : String → List ChatMsgOut → Except Unit JsVal) : HttpResponse :=
  match chatPhase body with
  | ChatPhase.respond r => r
  | ChatPhase.callUpstream oai =>
    match upstream (authHeader env.openaiKey) oai with
    | Except.error _ => ⟨500, errObj (JsVal.str "Failed to get AI response")⟩
    | Except.ok data =>
      match extractContent data with
      | Except.error _ => ⟨500, errObj (JsVal.str "Failed to get AI response")⟩
      | Except.ok reply => ⟨200, JsVal.obj (stringifyFields [("reply", reply)])⟩

/-- Source and target key names of the canonical product mapping
(src/server.js lines 285-295), source order. -/
def canonicalFieldPairs : List (String × String) :=
  [("name", "productName"),
   ("image_url", "productImageUrl"),
   ("rating", "averageRating"),
   ("review_count", "reviewCount"),
   ("pros", "pros"),
   ("cons", "cons"),
   ("price_min", "priceMin"),
   ("price_max", "priceMax"),
   ("retailers", "retailers")]

/-- The default each canonical key receives when its source is absent or
falsy; `productName` has none (it stays `undefined`). -/
def canonicalDefault : String → Option JsVal
  | "productImageUrl" => some (JsVal.str "https://via.placeholder.com/300")
  | "averageRating" => some (JsVal.num 0)
  | "reviewCount" => some (JsVal.num 0)
  | "pros" => some (JsVal.str "No information available")
  | "cons" => some (JsVal.str "No information available")
  | "priceMin" => some (JsVal.num 0)
  | "priceMax" => some (JsVal.num 0)
  | "retailers" => some (JsVal.arr [])
  | _ => none

/-- Association lookup on a formatted (pre-serialization) field list. -/
def lookupOptField : List (String × Option JsVal) → String → Option (Option JsVal)
  | [], _ => none
  | (k, v) :: rest, key => if k = key then some v else lookupOptField rest key

/-! Concrete stubs used by the scenario theorems and witnesses below. -/

/-- An environment with a DeepSeek key configured. -/
def stubEnv : Env := ⟨some "k", none⟩

/-- The decimal 4.2 of the C4 scenario as a raw normalized rational
(21/5); the scientific-literal elaboration of `4.2` is not
kernel-reducible, this form is. `rat42_is_4_2` below identifies them. -/
def rat42 : Rat := ⟨21, 5, by norm_num, by norm_num⟩

/-- The completion text of the C4 scenario stub upstream. -/
def stubText : String := "\x7b\"products\":[\x7b\"name\":\"X\",\"rating\":4.2\x7d]\x7d"

/-- The JSON value `JSON.parse` yields on the C4 scenario completion text. -/
def stubParsed : JsVal :=
  JsVal.obj [("products",
    JsVal.arr [JsVal.obj [("name", JsVal.str "X"), ("rating", JsVal.num rat42)]])]

/-- A chat-completion reply body whose single choice carries the given
content value. -/
def completionData (content : JsVal) : JsVal :=
  JsVal.obj [("choices",
    JsVal.arr [JsVal.obj [("message", JsVal.obj [("content", content)])]])]

/-- A `JSON.parse` oracle that parses exactly the C4 scenario text. -/
def stubParse : String → Except Unit JsVal :=
  fun s => if s = stubText then Except.ok stubParsed else Except.error ()

/-- A stub upstream resolving with the C4 scenario completion. -/
def stubUpstream : String → Except AxiosError UpResponse :=
  fun _ => Except.ok ⟨200, completionData (JsVal.str stubText)⟩

/-- A `JSON.parse` oracle returning a products list with one empty object. -/
def stubParseEmptyProduct : String → Except Unit JsVal :=
  fun _ => Except.ok (JsVal.obj [("products", JsVal.arr [JsVal.obj []])])

/-- A `JSON.parse` oracle returning a products list with one element whose
`pros` is present but the empty string. -/
def stubParseEmptyPros : String → Except Unit JsVal :=
  fun _ => Except.ok (JsVal.obj [("products",
    JsVal.arr [JsVal.obj [("pros", JsVal.str "")]])])

/-- A `JSON.parse` oracle returning a body with no `products` key and a
one-element `recommendations` list. -/
def stubParseRecs : String → Except Unit JsVal :=
  fun _ => Except.ok (JsVal.obj [("recommendations",
    JsVal.arr [JsVal.obj [("name", JsVal.str "Y")]])])

/-- A chat request body with one well-formed user message. -/
def stubChatBody : List (String × JsVal) :=
  [("messages", JsVal.arr
    [JsVal.obj [("role", JsVal.str "user"), ("content", JsVal.str "hi")]])]

/-- A stub upstream failing with a connection-refused error. -/
def connRefusedUpstream : String → Except AxiosError UpResponse :=
  fun _ => Except.error ⟨some "ECONNREFUSED", "connect ECONNREFUSED", none⟩

/-!
Theorems. Each claim Ck of the frozen claim list has exactly one theorem
(plus a witness or counterexample where required).
-/

theorem exc_ok_bind {α β ε : Type} (a : α) (f : α → Except ε β) :
    (Except.ok a >>= f) = f a := rfl

theorem exc_err_bind {α β ε : Type} (e : ε) (f : α → Except ε β) :
    (Except.error e >>= f : Except ε β) = Except.error e := rfl

theorem rat42_is_4_2 : rat42 = 4.2 := by
  unfold rat42
  rw [Rat.mk'_eq_divInt]
  norm_num [Rat.divInt_eq_div]

/-- C4: for `POST /api/search {"query":"wireless earbuds"}` with a stub
upstream whose completion text is `{"products":[{"name":"X","rating":4.2}]}`,
the response is 200 with exactly the canonical one-product body of the
scenario. -/
theorem search_scenario_wireless_earbuds :
    searchHandler stubEnv [("query", JsVal.str "wireless earbuds")] stubParse stubUpstream =
      ⟨200, JsVal.obj [("products", JsVal.arr [JsVal.obj
        [("productName", JsVal.str "X"),
         ("productImageUrl", JsVal.str "https://via.placeholder.com/300"),
         ("averageRating", JsVal.num rat42),
         ("reviewCount", JsVal.num 0),
         ("pros", JsVal.str "No information available"),
         ("cons", JsVal.str "No information available"),
         ("priceMin", JsVal.num 0),
         ("priceMax", JsVal.num 0),
         ("retailers", JsVal.arr [])]])]⟩ := by
  rfl

/-- C10: a falsy `priceFilter` — the number 0 or the empty string —
contributes nothing to the user prompt: the prompt equals the one built
with `priceFilter` absent, both at the prompt builder and at the
pre-upstream phase of the route. -/
theorem falsy_price_filter_ignored (q : JsVal) (env : Env) :
    buildUserPrompt q (some (JsVal.num 0)) = buildUserPrompt q none
    ∧ buildUserPrompt q (some (JsVal.str "")) = buildUserPrompt q none
    ∧ searchPhase env [("query", q), ("priceFilter", JsVal.num 0)]
        = searchPhase env [("query", q)]
    ∧ searchPhase env [("query", q), ("priceFilter", JsVal.str "")]
        = searchPhase env [("query", q)] := by
  refine ⟨rfl, rfl, ?_, ?_⟩ <;> simp [searchPhase, lookupField, buildUserPrompt, jsTruthy]

/-- C7: a search request with a missing or empty `query`, and a chat
request with missing, non-array or empty `messages`, are answered 400 in
the pre-upstream phase — before the route reaches its outbound call. -/
theorem validation_short_circuits :
    (∀ (env : Env) (body : List (String × JsVal)),
      (lookupField body "query" = none ∨ lookupField body "query" = some (JsVal.str "")) →
      searchPhase env body =
        SearchPhase.respond ⟨400, errObj (JsVal.str "Search query is required")⟩)
    ∧ (∀ (body : List (String × JsVal)),
      ((∀ xs, lookupField body "messages" ≠ some (JsVal.arr xs)) ∨
        lookupField body "messages" = some (JsVal.arr [])) →
      chatPhase body =
        ChatPhase.respond ⟨400, errObj (JsVal.str "Messages are required and must be an array")⟩) := by
  constructor
  · intro env body h
    rcases h with h | h <;> simp [searchPhase, h, jsTruthy]
  · intro body h
    unfold chatPhase
    rcases h with h | h
    · cases hm : lookupField body "messages" with
      | none => rfl
      | some v =>
        cases v with
        | arr xs => exact absurd hm (h xs)
        | null => rfl
        | bool b => rfl
        | num n => rfl
        | str s => rfl
        | obj fs => rfl
    · rw [h]
      rfl

/-- Witness for C7 at two concrete requests: an empty search body and a
chat body whose `messages` is a string. -/
theorem validation_short_circuits_witness :
    searchPhase ⟨none, none⟩ [] =
      SearchPhase.respond ⟨400, errObj (JsVal.str "Search query is required")⟩
    ∧ chatPhase [("messages", JsVal.str "x")] =
      ChatPhase.respond ⟨400, errObj (JsVal.str "Messages are required and must be an array")⟩ :=
  ⟨validation_short_circuits.1 ⟨none, none⟩ [] (Or.inl rfl),
   validation_short_circuits.2 [("messages", JsVal.str "x")]
     (Or.inl (fun xs h => by simp [lookupField] at h))⟩

/-- C1: when the upstream call succeeds but the completion cannot be
parsed as JSON, the response is 200 with exactly one synthetic product:
its `productName` is the original query string, its descriptive fields are
placeholder text, its numeric fields are 0 — the parse failure never
becomes an error status. -/
theorem search_parse_failure_fallback
    (env : Env) (body : List (String × JsVal))
    (parse : String → Except Unit JsVal)
    (upstream : String → Except AxiosError UpResponse)
    (q : String) (resp : UpResponse) (content : Option JsVal)
    (hq : lookupField body "query" = some (JsVal.str q))
    (hq2 : q ≠ "")
    (hkey : strOptTruthy env.deepseekKey = true)
    (hup : upstream (buildUserPrompt (JsVal.str q) (lookupField body "priceFilter"))
      = Except.ok resp)
    (hext : extractContent resp.data = Except.ok content)
    (hparse : parse (optToString content) = Except.error ()) :
    searchHandler env body parse upstream =
      ⟨200, JsVal.obj [("products", JsVal.arr [JsVal.obj
        [("productName", JsVal.str q),
         ("productImageUrl", JsVal.str "https://via.placeholder.com/300"),
         ("averageRating", JsVal.num 0),
         ("reviewCount", JsVal.num 0),
         ("pros", JsVal.str "Information not available"),
         ("cons", JsVal.str "Information not available"),
         ("priceMin", JsVal.num 0),
         ("priceMax", JsVal.num 0),
         ("retailers", JsVal.arr [])]])]⟩ := by
  unfold searchHandler searchPhase
  rw [hq]
  simp [jsTruthy, hq2, hkey, hup, searchTryBlock, searchParseStep, hext,
    exc_ok_bind, hparse, exc_err_bind, fallbackProducts, formatProducts,
    formatAll, formatProduct, formatFields, pget, lookupField, jsOrO,
    stringifyFields, jsToString]

/-- Witness for C1: a concrete request whose `JSON.parse` oracle always
fails, run through the full handler. -/
theorem search_parse_failure_fallback_witness :
    searchHandler stubEnv [("query", JsVal.str "q")] (fun _ => Except.error ())
      stubUpstream =
      ⟨200, JsVal.obj [("products", JsVal.arr [JsVal.obj
        [("productName", JsVal.str "q"),
         ("productImageUrl", JsVal.str "https://via.placeholder.com/300"),
         ("averageRating", JsVal.num 0),
         ("reviewCount", JsVal.num 0),
         ("pros", JsVal.str "Information not available"),
         ("cons", JsVal.str "Information not available"),
         ("priceMin", JsVal.num 0),
         ("priceMax", JsVal.num 0),
         ("retailers", JsVal.arr [])]])]⟩ :=
  search_parse_failure_fallback stubEnv [("query", JsVal.str "q")]
    (fun _ => Except.error ()) stubUpstream "q"
    ⟨200, completionData (JsVal.str stubText)⟩ (some (JsVal.str stubText))
    rfl (by decide) rfl rfl rfl rfl

/-- C5: when the upstream call fails, the failure class fixes the
response: a connection failure answers 503; an axios-level timeout (socket
timeout codes, or `ECONNABORTED` from the 15s request timeout, with no
upstream reply and no connect/network wording) answers 504; an upstream
non-2xx reply passes the upstream status through, with the message
replaced by a friendlier one for 401/403 and 404 — and every such failure
produces a structured `{error:true, message}` body. -/
theorem search_upstream_failure_mapping
    (env : Env) (body : List (String × JsVal))
    (parse : String → Except Unit JsVal)
    (upstream : String → Except AxiosError UpResponse)
    (prompt : String) (e : AxiosError)
    (hphase : searchPhase env body = SearchPhase.callUpstream prompt)
    (hup : upstream prompt = Except.error e) :
    ((e.code = some "ECONNREFUSED" ∨ e.code = some "ENOTFOUND") →
      searchHandler env body parse upstream =
        ⟨503, errObj (JsVal.str "Cannot connect to search service. Please try again later.")⟩)
    ∧ (strIncludes e.message "connect" = false →
       strIncludes e.message "network" = false →
       e.response = none →
       (e.code = some "ETIMEDOUT" ∨ e.code = some "ESOCKETTIMEDOUT" ∨
         e.code = some "ECONNABORTED") →
       (searchHandler env body parse upstream).status = 504
       ∧ ∃ m, (searchHandler env body parse upstream).body = errObj (JsVal.str m))
    ∧ (∀ s d, e.response = some ⟨s, d⟩ →
       strIncludes e.message "connect" = false →
       strIncludes e.message "network" = false →
       e.code ≠ some "ECONNREFUSED" → e.code ≠ some "ENOTFOUND" →
       e.code ≠ some "ETIMEDOUT" → e.code ≠ some "ESOCKETTIMEDOUT" →
       e.code ≠ some "ECONNABORTED" → s ≠ 0 →
       (searchHandler env body parse upstream).status = s
       ∧ ((s = 401 ∨ s = 403) →
          (searchHandler env body parse upstream).body =
            errObj (JsVal.str "Authentication error with search service. Please contact support."))
       ∧ (s = 404 →
          (searchHandler env body parse upstream).body =
            errObj (JsVal.str "Search service endpoint not found. Please contact support."))
       ∧ ∃ m, (searchHandler env body parse upstream).body = errObj m) := by
  unfold searchHandler
  rw [hphase]
  simp only [hup]
  refine ⟨?_, ?_, ?_⟩
  · intro h
    rcases h with h | h <;> simp [networkCatch, h]
  · intro h1 h2 h3 h4
    rcases h4 with h | h | h
    · have hn : networkCatch e =
          some ⟨504, errObj (JsVal.str "Search service connection timed out. Please try again later.")⟩ := by
        simp [networkCatch, h, h1, h2]
      rw [hn]
      exact ⟨rfl, _, rfl⟩
    · have hn : networkCatch e =
          some ⟨504, errObj (JsVal.str "Search service connection timed out. Please try again later.")⟩ := by
        simp [networkCatch, h, h1, h2]
      rw [hn]
      exact ⟨rfl, _, rfl⟩
    · have hn : networkCatch e = none := by
        simp [networkCatch, h, h1, h2]
      have ha : apiCatch e =
          ⟨504, errObj (JsVal.str "Search request timed out. Please try again later.")⟩ := by
        simp [apiCatch, h3, h]
      simp [hn, ha]
      exact ⟨_, rfl⟩
  · intro s d hres h1 h2 hc1 hc2 hc3 hc4 hc5 hs
    have hn : networkCatch e = none := by
      simp [networkCatch, h1, h2, hc1, hc2, hc3, hc4]
    simp only [hn]
    unfold apiCatch
    simp only [hres, Option.map_some', hs, ne_eq, not_false_iff, if_true]
    refine ⟨?_, ?_, ?_, ?_⟩
    · split_ifs with hA hB
      · rfl
      · rfl
      · rfl
    · intro hor
      rcases hor with h | h <;> subst h <;> simp
    · intro h404
      subst h404
      simp
    · split_ifs <;> exact ⟨_, rfl⟩

/-- Witness for C5: the full handler run on a connection-refused stub
upstream answers 503. -/
theorem search_upstream_failure_mapping_witness :
    searchHandler stubEnv [("query", JsVal.str "q")] stubParse connRefusedUpstream =
      ⟨503, errObj (JsVal.str "Cannot connect to search service. Please try again later.")⟩ :=
  (search_upstream_failure_mapping stubEnv [("query", JsVal.str "q")] stubParse
    connRefusedUpstream (buildUserPrompt (JsVal.str "q") none)
    ⟨some "ECONNREFUSED", "connect ECONNREFUSED", none⟩ rfl rfl).1 (Or.inl rfl)

/-- C8 counterexample: with no chat credential configured and a valid
one-message request, the chat route still reaches the upstream call — the
pre-upstream phase is `callUpstream` and the Authorization header is built
from the missing key as `Bearer undefined` — and with a reachable stub
upstream the response is 200, not a 500 configuration error produced
without a network call. -/
theorem chat_missing_key_counterexample :
    chatPhase stubChatBody =
      ChatPhase.callUpstream [⟨some (JsVal.str "user"), some (JsVal.str "hi")⟩]
    ∧ authHeader none = "Bearer undefined"
    ∧ chatHandler ⟨none, none⟩ stubChatBody
        (fun _ _ => Except.ok (completionData (JsVal.str "hello"))) =
      ⟨200, JsVal.obj [("reply", JsVal.str "hello")]⟩ :=
  ⟨rfl, rfl, rfl⟩

/-- C8 amended: the chat route performs no credential check; with no chat
credential configured it still attempts the upstream call, sending
`Bearer undefined`, and when that call fails the single catch answers 500
with the generic `Failed to get AI response` body — a 500 arrives only
after the network call is attempted, and it is not a configuration
error. -/
theorem chat_missing_key_amended
    (dk : Option String) (body : List (String × JsVal)) (oai : List ChatMsgOut)
    (upstream : String → List ChatMsgOut → Except Unit JsVal)
    (hph : chatPhase body = ChatPhase.callUpstream oai)
    (hup : upstream "Bearer undefined" oai = Except.error ()) :
    chatHandler ⟨dk, none⟩ body upstream =
      ⟨500, errObj (JsVal.str "Failed to get AI response")⟩ := by
  unfold chatHandler
  rw [hph]
  rw [show authHeader (Env.mk dk none).openaiKey = "Bearer undefined" from rfl]
  simp only [hup]

/-- Witness for C8's amended theorem at a concrete request with an
always-failing upstream. -/
theorem chat_missing_key_amended_witness :
    chatHandler ⟨none, none⟩ stubChatBody (fun _ _ => Except.error ()) =
      ⟨500, errObj (JsVal.str "Failed to get AI response")⟩ :=
  chat_missing_key_amended none stubChatBody
    [⟨some (JsVal.str "user"), some (JsVal.str "hi")⟩]
    (fun _ _ => Except.error ()) rfl rfl

/-- C9: for a valid non-empty `messages` array, a successful upstream call
with extractable content answers 200 with `{reply}` carrying the single
top completion's content verbatim; every failure after validation — a
pre-call throw, an upstream error of any kind, or a throw while reading
the completion — answers 500 with the `{error:true, message}` body. -/
theorem chat_reply_and_failure_mapping
    (env : Env) (body : List (String × JsVal)) (msgs : List JsVal)
    (hmsgs : lookupField body "messages" = some (JsVal.arr msgs))
    (hne : msgs ≠ []) :
    (∀ r, chatPhase body = ChatPhase.respond r →
      r.status = 500 ∧ r.body = errObj (JsVal.str "Failed to get AI response"))
    ∧ (∀ (upstream : String → List ChatMsgOut → Except Unit JsVal)
        (oai : List ChatMsgOut) (data reply : JsVal),
        chatPhase body = ChatPhase.callUpstream oai →
        upstream (authHeader env.openaiKey) oai = Except.ok data →
        extractContent data = Except.ok (some reply) →
        chatHandler env body upstream = ⟨200, JsVal.obj [("reply", reply)]⟩)
    ∧ (∀ (upstream : String → List ChatMsgOut → Except Unit JsVal)
        (oai : List ChatMsgOut),
        chatPhase body = ChatPhase.callUpstream oai →
        upstream (authHeader env.openaiKey) oai = Except.error () →
        chatHandler env body upstream =
          ⟨500, errObj (JsVal.str "Failed to get AI response")⟩)
    ∧ (∀ (upstream : String → List ChatMsgOut → Except Unit JsVal)
        (oai : List ChatMsgOut) (data : JsVal),
        chatPhase body = ChatPhase.callUpstream oai →
        upstream (authHeader env.openaiKey) oai = Except.ok data →
        extractContent data = Except.error () →
        chatHandler env body upstream =
          ⟨500, errObj (JsVal.str "Failed to get AI response")⟩) := by
  refine ⟨?_, ?_, ?_, ?_⟩
  · intro r hr
    unfold chatPhase at hr
    rw [hmsgs] at hr
    have hl : ¬ msgs.length = 0 := by simpa [List.length_eq_zero] using hne
    simp only [if_neg hl] at hr
    cases hmo : msgsToOut msgs with
    | error u =>
      simp only [hmo] at hr
      cases hr
      exact ⟨rfl, rfl⟩
    | ok oai =>
      simp only [hmo] at hr
      cases hcs : contextStep (lookupField body "context") oai with
      | error u =>
        simp only [hcs] at hr
        cases hr
        exact ⟨rfl, rfl⟩
      | ok oai2 =>
        simp only [hcs] at hr
        cases hr
  · intro upstream oai data reply hph hup hext
    unfold chatHandler
    rw [hph]
    simp [hup, hext, stringifyFields]
  · intro upstream oai hph hup
    unfold chatHandler
    rw [hph]
    simp [hup]
  · intro upstream oai data hph hup hext
    unfold chatHandler
    rw [hph]
    simp [hup, hext]

/-- Witness for C9: a concrete valid chat request against a stub upstream
returning a completion with content `"hello"`. -/
theorem chat_reply_and_failure_mapping_witness :
    chatHandler stubEnv stubChatBody
      (fun _ _ => Except.ok (completionData (JsVal.str "hello"))) =
      ⟨200, JsVal.obj [("reply", JsVal.str "hello")]⟩ :=
  (chat_reply_and_failure_mapping stubEnv stubChatBody
    [JsVal.obj [("role", JsVal.str "user"), ("content", JsVal.str "hi")]]
    rfl (List.cons_ne_nil _ _)).2.1
    (fun _ _ => Except.ok (completionData (JsVal.str "hello")))
    [⟨some (JsVal.str "user"), some (JsVal.str "hi")⟩]
    (completionData (JsVal.str "hello")) (JsVal.str "hello") rfl rfl rfl

/-- Helper: a run of same-timestamp consume calls from an active bucket
with `1 ≤ count ≤ capacity` admits exactly while the count stays below
capacity, and the final count is capped at the capacity. -/
theorem rlConsumeSeq_active (t : Nat) :
    ∀ (m c : Nat), 1 ≤ c → c ≤ ratePoints →
    rlConsumeSeq (some ⟨c, t⟩) (List.replicate m t) =
      ((List.range m).map (fun i => decide (c + i < ratePoints)),
       some ⟨min (c + m) ratePoints, t⟩) := by
  intro m
  induction m with
  | zero =>
    intro c h1 h2
    simp [rlConsumeSeq, Nat.min_eq_left h2]
  | succ m ih =>
    intro c h1 h2
    rw [List.replicate_succ]
    have hexp : ¬ (t + rateDuration ≤ t) := by unfold rateDuration; omega
    by_cases hc : c < ratePoints
    · have hstep : rlConsume t (some ⟨c, t⟩) = (true, ⟨c + 1, t⟩) := by
        unfold rlConsume
        simp [hexp, hc]
      unfold rlConsumeSeq
      rw [hstep]
      dsimp only
      rw [ih (c + 1) (by omega) (by omega)]
      rw [List.range_succ_eq_map, List.map_cons, List.map_map]
      refine congrArg₂ Prod.mk ?_ ?_
      · rw [show decide (c + 0 < ratePoints) = true from by
          rw [decide_eq_true_eq]; omega]
        refine congrArg₂ List.cons rfl ?_
        refine congrArg (fun f => List.map f (List.range m)) ?_
        funext i
        simp only [Function.comp_apply]
        rw [decide_eq_decide]
        omega
      · rw [show c + 1 + m = c + (m + 1) from by omega]
    · have hceq : c = ratePoints := by omega
      have hstep : rlConsume t (some ⟨c, t⟩) = (false, ⟨c, t⟩) := by
        unfold rlConsume
        simp [hexp, hc]
      unfold rlConsumeSeq
      rw [hstep]
      dsimp only
      rw [ih c h1 h2]
      rw [List.range_succ_eq_map, List.map_cons, List.map_map]
      refine congrArg₂ Prod.mk ?_ ?_
      · rw [show decide (c + 0 < ratePoints) = false from by
          rw [decide_eq_false_iff_not]; omega]
        refine congrArg₂ List.cons rfl ?_
        refine congrArg (fun f => List.map f (List.range m)) ?_
        funext i
        simp only [Function.comp_apply]
        rw [decide_eq_decide]
        omega
      · rw [show min (c + m) ratePoints = min (c + (m + 1)) ratePoints from by
          subst hceq; unfold ratePoints; omega]

/-- Helper: a same-timestamp run from a fresh (absent) bucket admits
exactly the first `ratePoints` calls. -/
theorem rlConsumeSeq_fresh (now k : Nat) :
    rlConsumeSeq none (List.replicate k now) =
      ((List.range k).map (fun i => decide (i < ratePoints)),
       if k = 0 then none else some ⟨min k ratePoints, now⟩) := by
  cases k with
  | zero => simp [rlConsumeSeq]
  | succ m =>
    rw [List.replicate_succ]
    unfold rlConsumeSeq
    rw [show rlConsume now none = (true, ⟨1, now⟩) from rfl]
    dsimp only
    rw [rlConsumeSeq_active now m 1 (by omega) (by unfold ratePoints; omega)]
    rw [List.range_succ_eq_map, List.map_cons, List.map_map]
    simp only [Nat.succ_ne_zero, if_false]
    refine congrArg₂ Prod.mk ?_ ?_
    · rw [show decide ((0 : Nat) < ratePoints) = true from by
        rw [decide_eq_true_eq]; unfold ratePoints; omega]
      refine congrArg₂ List.cons rfl ?_
      refine congrArg (fun f => List.map f (List.range m)) ?_
      funext i
      simp only [Function.comp_apply]
      rw [decide_eq_decide]
      omega
    · rw [show (1 : Nat) + m = m + 1 from by omega]

/-- C6: within one window (requests sharing a timestamp, fresh bucket) the
i-th call is admitted exactly when i < 10; the middleware turns a rejected
call into a 429 with the error body and passes an admitted one through;
the stored count never exceeds the capacity after any prefix of the run;
and once the window has elapsed the bucket resets to count 1 and the next
request is admitted. -/
theorem rate_limiter_fixed_window (now k : Nat) (next : HttpResponse) :
    ((rlConsumeSeq none (List.replicate k now)).1
      = (List.range k).map (fun i => decide (i < ratePoints)))
    ∧ rateLimiterMiddleware false next =
        ⟨429, errObj (JsVal.str "Too many requests, please try again later.")⟩
    ∧ rateLimiterMiddleware true next = next
    ∧ (∀ j w, (rlConsumeSeq none (List.replicate j now)).2 = some w →
        w.count ≤ ratePoints)
    ∧ (0 < k →
        rlConsume (now + rateDuration) (rlConsumeSeq none (List.replicate k now)).2
          = (true, ⟨1, now + rateDuration⟩)) := by
  refine ⟨?_, rfl, rfl, ?_, ?_⟩
  · rw [rlConsumeSeq_fresh]
  · intro j w h
    rw [rlConsumeSeq_fresh] at h
    cases j with
    | zero => simp at h
    | succ m =>
      simp only [Nat.succ_ne_zero, if_false] at h
      cases h
      exact Nat.min_le_right _ _
  · intro hk
    rw [rlConsumeSeq_fresh]
    have hk0 : ¬ k = 0 := by omega
    simp only [if_neg hk0]
    unfold rlConsume
    simp

/-- Witness for C6 at 11 same-timestamp requests: the admission pattern,
the count cap after the over-capacity run, and the reset admission. -/
theorem rate_limiter_fixed_window_witness :
    (rlConsumeSeq none (List.replicate 11 0)).1
      = (List.range 11).map (fun i => decide (i < ratePoints))
    ∧ (⟨10, 0⟩ : RateWindow).count ≤ ratePoints
    ∧ rlConsume (0 + rateDuration) (rlConsumeSeq none (List.replicate 11 0)).2
        = (true, ⟨1, 0 + rateDuration⟩) :=
  ⟨(rate_limiter_fixed_window 0 11 ⟨200, JsVal.obj []⟩).1,
   (rate_limiter_fixed_window 0 11 ⟨200, JsVal.obj []⟩).2.2.2.1 11 ⟨10, 0⟩ rfl,
   (rate_limiter_fixed_window 0 11 ⟨200, JsVal.obj []⟩).2.2.2.2 (by omega)⟩

/-- Helper shared by the C2 and C3 theorems: for every pair of the
canonical field mapping, a truthy present source value is carried over
verbatim into the formatted product, and an absent source yields the
canonical default (`none`, i.e. `undefined`, for `productName`). -/
theorem format_field_facts (fs : List (String × JsVal)) (src dst : String)
    (hp : (src, dst) ∈ canonicalFieldPairs) :
    (∀ v, lookupField fs src = some v → jsTruthy (some v) = true →
      lookupOptField (formatFields (JsVal.obj fs)) dst = some (some v))
    ∧ (lookupField fs src = none →
      lookupOptField (formatFields (JsVal.obj fs)) dst = some (canonicalDefault dst)) := by
  fin_cases hp <;>
  exact ⟨fun v hv ht => by simp [formatFields, lookupOptField, pget, hv, jsOrO, ht],
    fun hv => by simp [formatFields, lookupOptField, pget, hv, jsOrO, canonicalDefault]⟩

/-- Helper for the C3 theorem: a source field that is present but falsy is
replaced by the canonical default exactly like an absent one, for every
defaulted target field (every canonical field except `productName`, whose
`product.name` has no `||` default). -/
theorem format_field_falsy (fs : List (String × JsVal)) (src dst : String)
    (hp : (src, dst) ∈ canonicalFieldPairs) (hne : dst ≠ "productName")
    (v : JsVal) (hv : lookupField fs src = some v)
    (ht : jsTruthy (some v) = false) :
    lookupOptField (formatFields (JsVal.obj fs)) dst = some (canonicalDefault dst) := by
  fin_cases hp
  · exact absurd rfl hne
  all_goals simp [formatFields, lookupOptField, pget, hv, jsOrO, ht, canonicalDefault]

/-- C2 counterexample: the upstream element `{}` produces a 200 response
whose single product object has no `productName` entry at all — the
serialized canonical schema is not fully populated, refuting the claim
that every field of the schema is always present. -/
theorem product_name_missing_counterexample :
    searchHandler stubEnv [("query", JsVal.str "q")] stubParseEmptyProduct stubUpstream =
      ⟨200, JsVal.obj [("products", JsVal.arr [JsVal.obj
        [("productImageUrl", JsVal.str "https://via.placeholder.com/300"),
         ("averageRating", JsVal.num 0),
         ("reviewCount", JsVal.num 0),
         ("pros", JsVal.str "No information available"),
         ("cons", JsVal.str "No information available"),
         ("priceMin", JsVal.num 0),
         ("priceMax", JsVal.num 0),
         ("retailers", JsVal.arr [])]])]⟩
    ∧ lookupField
        [("productImageUrl", JsVal.str "https://via.placeholder.com/300"),
         ("averageRating", JsVal.num 0),
         ("reviewCount", JsVal.num 0),
         ("pros", JsVal.str "No information available"),
         ("cons", JsVal.str "No information available"),
         ("priceMin", JsVal.num 0),
         ("priceMax", JsVal.num 0),
         ("retailers", JsVal.arr [])] "productName" = none :=
  ⟨rfl, rfl⟩

/-- C2 amended: of the canonical schema, every field except `productName`
is always present in the formatted product, with its default when the
source field is absent and the source value verbatim when it is truthy;
`productName` has no default — it carries the element's `name` verbatim
and is omitted from the serialized object when `name` is absent; and
`retailers` is the element's `retailers` value passed through unchanged,
with no per-retailer re-mapping. -/
theorem product_schema_defaults_amended (fs : List (String × JsVal)) :
    (∀ src dst, (src, dst) ∈ canonicalFieldPairs →
      (∀ v, lookupField fs src = some v → jsTruthy (some v) = true →
        lookupOptField (formatFields (JsVal.obj fs)) dst = some (some v))
      ∧ (lookupField fs src = none →
        lookupOptField (formatFields (JsVal.obj fs)) dst = some (canonicalDefault dst)))
    ∧ (∀ dst, dst ∈ ["productImageUrl", "averageRating", "reviewCount", "pros",
        "cons", "priceMin", "priceMax", "retailers"] →
      ∃ v, lookupField (stringifyFields (formatFields (JsVal.obj fs))) dst = some v)
    ∧ (lookupField fs "name" = none →
      lookupField (stringifyFields (formatFields (JsVal.obj fs))) "productName" = none)
    ∧ (∀ v, lookupField fs "name" = some v →
      lookupField (stringifyFields (formatFields (JsVal.obj fs))) "productName" = some v)
    ∧ (∀ r, lookupField fs "retailers" = some r → jsTruthy (some r) = true →
      lookupField (stringifyFields (formatFields (JsVal.obj fs))) "retailers" = some r) := by
  refine ⟨fun src dst hp => format_field_facts fs src dst hp, ?_, ?_, ?_, ?_⟩
  · intro dst hdst
    fin_cases hdst <;>
      cases hn : lookupField fs "name" <;>
        simp [stringifyFields, formatFields, pget, hn, lookupField]
  · intro hn
    simp [stringifyFields, formatFields, pget, hn, lookupField]
  · intro v hv
    simp [stringifyFields, formatFields, pget, hv, lookupField]
  · intro r hr ht
    cases hn : lookupField fs "name" <;>
      simp [stringifyFields, formatFields, pget, hn, hr, lookupField, jsOrO, ht]

/-- Witness for C2's amended theorem at the empty element. -/
theorem product_schema_defaults_amended_witness :
    lookupOptField (formatFields (JsVal.obj [])) "pros" = some (canonicalDefault "pros")
    ∧ lookupField (stringifyFields (formatFields (JsVal.obj []))) "productName" = none :=
  ⟨((product_schema_defaults_amended []).1 "pros" "pros"
      (by simp [canonicalFieldPairs])).2 rfl,
   (product_schema_defaults_amended []).2.2.1 rfl⟩

/-- C3 counterexample: the upstream list element `{"pros": ""}` has `pros`
present, yet the mapped product carries the placeholder instead of the
present value — the mapping is not lossless for present fields (present
falsy values are replaced like absent ones). -/
theorem present_falsy_field_lossy_counterexample :
    searchHandler stubEnv [("query", JsVal.str "q")] stubParseEmptyPros stubUpstream =
      ⟨200, JsVal.obj [("products", JsVal.arr [JsVal.obj
        [("productImageUrl", JsVal.str "https://via.placeholder.com/300"),
         ("averageRating", JsVal.num 0),
         ("reviewCount", JsVal.num 0),
         ("pros", JsVal.str "No information available"),
         ("cons", JsVal.str "No information available"),
         ("priceMin", JsVal.num 0),
         ("priceMax", JsVal.num 0),
         ("retailers", JsVal.arr [])]])]⟩
    ∧ ("No information available" : String) ≠ "" :=
  ⟨rfl, by decide⟩

/-- Helper: `products.map` succeeds on a list without `null` elements and
formats each element. -/
theorem formatAll_ok (xs : List JsVal) (h : ∀ p ∈ xs, p ≠ JsVal.null) :
    formatAll xs = Except.ok (xs.map (fun p => formatFields p)) := by
  induction xs with
  | nil => rfl
  | cons p rest ih =>
    have hp : p ≠ JsVal.null := h p (List.mem_cons_self p rest)
    have hfp : formatProduct p = Except.ok (formatFields p) := by
      cases p
      · exact absurd rfl hp
      all_goals rfl
    unfold formatAll
    rw [hfp]
    rw [show (Except.ok (formatFields p) : Except String (List (String × Option JsVal)))
        >>= (fun f => formatAll rest >>= fun fs => pure (f :: fs))
      = formatAll rest >>= fun fs => pure (formatFields p :: fs) from rfl]
    rw [ih (fun q hq => h q (List.mem_cons_of_mem p hq))]
    rfl

/-- Helper: the serialized canonical product of a non-null element. -/
theorem canonProduct_ne_null (p : JsVal) (hp : p ≠ JsVal.null) :
    canonProduct p = JsVal.obj (stringifyFields (formatFields p)) := by
  unfold canonProduct
  cases p
  · exact absurd rfl hp
  all_goals rfl

/-- C3 amended: when the parsed upstream body carries a top-level
`products` list — or no truthy `products` but a `recommendations` list,
taken by the same dispatch — containing no `null` elements, the response
is 200 with one canonical product per upstream element (same length), and
the per-element mapping carries a present truthy source field verbatim,
defaults an absent one, and replaces a present-but-falsy one by the same
default (for every field but `productName`, which has no default) — so
the mapping is lossless exactly for truthy present fields. -/
theorem products_list_mapping_amended
    (env : Env) (body : List (String × JsVal))
    (parse : String → Except Unit JsVal)
    (upstream : String → Except AxiosError UpResponse)
    (qv : JsVal) (resp : UpResponse) (content : Option JsVal)
    (pd : List (String × JsVal)) (xs : List JsVal)
    (hq : lookupField body "query" = some qv)
    (hqt : jsTruthy (some qv) = true)
    (hkey : strOptTruthy env.deepseekKey = true)
    (hup : upstream (buildUserPrompt qv (lookupField body "priceFilter")) = Except.ok resp)
    (hext : extractContent resp.data = Except.ok content)
    (hparse : parse (optToString content) = Except.ok (JsVal.obj pd))
    (hpd : lookupField pd "products" = some (JsVal.arr xs)
      ∨ (jsTruthy (lookupField pd "products") = false
         ∧ lookupField pd "recommendations" = some (JsVal.arr xs)))
    (hnn : ∀ p ∈ xs, p ≠ JsVal.null) :
    searchHandler env body parse upstream =
      ⟨200, JsVal.obj [("products", JsVal.arr (xs.map canonProduct))]⟩
    ∧ (xs.map canonProduct).length = xs.length
    ∧ (∀ fs src dst, (src, dst) ∈ canonicalFieldPairs →
        (∀ v, lookupField fs src = some v → jsTruthy (some v) = true →
          lookupOptField (formatFields (JsVal.obj fs)) dst = some (some v))
        ∧ (lookupField fs src = none →
          lookupOptField (formatFields (JsVal.obj fs)) dst = some (canonicalDefault dst)))
    ∧ (∀ fs src dst, (src, dst) ∈ canonicalFieldPairs → dst ≠ "productName" →
        ∀ v, lookupField fs src = some v → jsTruthy (some v) = false →
          lookupOptField (formatFields (JsVal.obj fs)) dst = some (canonicalDefault dst)) := by
  refine ⟨?_, List.length_map xs canonProduct,
    fun fs src dst hp => format_field_facts fs src dst hp,
    fun fs src dst hp hne v hv ht => format_field_falsy fs src dst hp hne v hv ht⟩
  have hmap : xs.map canonProduct =
      (xs.map (fun p => formatFields p)).map (fun out => JsVal.obj (stringifyFields out)) := by
    rw [List.map_map]
    exact List.map_congr_left (fun p hp => canonProduct_ne_null p (hnn p hp))
  unfold searchHandler searchPhase
  rw [hq]
  simp only [hqt, hkey, Bool.not_true, Bool.false_eq_true, if_false, Option.getD_some]
  simp only [hup]
  rcases hpd with hpd | ⟨hfalse, hrec⟩
  · simp only [searchTryBlock, searchParseStep, hext, exc_ok_bind, hparse,
      dispatchProducts, jsGet, hpd, jsTruthy, if_true, Option.getD_some]
    simp only [pure, Except.pure, formatProducts, formatAll_ok xs hnn]
    rw [hmap]
  · simp only [searchTryBlock, searchParseStep, hext, exc_ok_bind, hparse,
      dispatchProducts, jsGet, hfalse, Bool.false_eq_true, if_false]
    simp only [hrec, jsTruthy, if_true, Option.getD_some]
    simp only [pure, Except.pure, formatProducts, formatAll_ok xs hnn]
    rw [hmap]

/-- Witness for C3's amended theorem: the C4 scenario input run through
the full handler, and a body whose list sits under `recommendations`
with no `products` key, each stated through the per-element canonical
mapping. -/
theorem products_list_mapping_amended_witness :
    (searchHandler stubEnv [("query", JsVal.str "q")] stubParse stubUpstream =
      ⟨200, JsVal.obj [("products", JsVal.arr
        ([JsVal.obj [("name", JsVal.str "X"), ("rating", JsVal.num rat42)]].map canonProduct))]⟩)
    ∧ (searchHandler stubEnv [("query", JsVal.str "q")] stubParseRecs stubUpstream =
      ⟨200, JsVal.obj [("products", JsVal.arr
        ([JsVal.obj [("name", JsVal.str "Y")]].map canonProduct))]⟩) :=
  ⟨(products_list_mapping_amended stubEnv [("query", JsVal.str "q")] stubParse
    stubUpstream (JsVal.str "q") ⟨200, completionData (JsVal.str stubText)⟩
    (some (JsVal.str stubText))
    [("products", JsVal.arr [JsVal.obj [("name", JsVal.str "X"), ("rating", JsVal.num rat42)]])]
    [JsVal.obj [("name", JsVal.str "X"), ("rating", JsVal.num rat42)]]
    rfl rfl rfl rfl rfl rfl (Or.inl rfl)
    (fun p hp => by
      simp only [List.mem_singleton] at hp
      subst hp
      exact fun h => JsVal.noConfusion h)).1,
   (products_list_mapping_amended stubEnv [("query", JsVal.str "q")] stubParseRecs
    stubUpstream (JsVal.str "q") ⟨200, completionData (JsVal.str stubText)⟩
    (some (JsVal.str stubText))
    [("recommendations", JsVal.arr [JsVal.obj [("name", JsVal.str "Y")]])]
    [JsVal.obj [("name", JsVal.str "Y")]]
    rfl rfl rfl rfl rfl rfl (Or.inr ⟨rfl, rfl⟩)
    (fun p hp => by
      simp only [List.mem_singleton] at hp
      subst hp
      exact fun h => JsVal.noConfusion h)).1⟩
